import Mathlib

/-!
# Verification of the CLI-generator specification model and code emitter

A shallow embedding of the `cli_generator` package: the pydantic
specification models with their validators (`models.py`) and the pure
rendering functions of the code emitter (`generators/code_generator.py`),
together with theorems settling the stated properties of the system.

Python strings are embedded as `String`, `None`-able fields as `Option`,
raised `ValueError`s as `Except` with a structured error type carrying the
same data as the corresponding Python message (a renderer reproduces the
exact message text).
-/

namespace CliGen

/-- A Python scalar value, as can appear in an `OptionSpec.default` field
(`default: Any`). Only the scalar shapes the generator renders are
modelled. -/
inductive PyValue where
  | pyStr (s : String)
  | pyInt (n : Int)
  | pyBool (b : Bool)
  deriving Repr, DecidableEq

/-- Python `str(v)` for a non-string scalar, and the bare text of a string:
used when interpolating a default value into rendered source. -/
def pyShow : PyValue → String
  | .pyStr s => s
  | .pyInt n => toString n
  | .pyBool b => if b then "True" else "False"

/-- `sanitize_name` from `models.py`: Python `name.lstrip("-")`, removing
every leading dash. -/
def sanitize_name (name : String) : String :=
  String.mk (name.data.dropWhile (fun c => c = '-'))

/-- `ArgumentSpec`: a positional argument, fields as in `models.py`
(after pydantic field validation). -/
structure ArgumentSpec where
  name : String
  type : String := "str"
  required : Bool := true
  help : String := ""
  deriving Repr, DecidableEq

/-- `OptionSpec`: a command-line option, fields as in `models.py`
(after pydantic field validation). -/
structure OptionSpec where
  name : String
  short : Option String := none
  type : String := "str"
  required : Bool := false
  default : Option PyValue := none
  help : String := ""
  choices : Option (List String) := none
  deriving Repr, DecidableEq

/-- `OptionSpec.clean_short` (a `mode="before"` field validator): strip
leading dashes; an empty result becomes `None`. -/
def clean_short : Option String → Option String
  | none => none
  | some s =>
      let cleaned := String.mk (s.data.dropWhile (fun c => c = '-'))
      if cleaned = "" then none else some cleaned

/-- Errors raised by the `OptionSpec` model validators, carrying the data
interpolated into the Python `ValueError` message. -/
inductive OptErr where
  | shortLen (s : String)
  | choiceEmpty
  deriving Repr, DecidableEq

/-- The exact `ValueError` message text of each `OptionSpec` validator. -/
def optErrMsg : OptErr → String
  | .shortLen s => "Short option must be a single character, got '" ++ s ++ "'"
  | .choiceEmpty => "Option with type='choice' must have a non-empty choices list"

/-- `OptionSpec.validate_short_option`: fails iff a short name is present
and its length is not 1. -/
def validate_short_option (o : OptionSpec) : Except OptErr OptionSpec :=
  match o.short with
  | some s => if s.length ≠ 1 then .error (.shortLen s) else .ok o
  | none => .ok o

/-- `OptionSpec.validate_choice_type_has_choices`: fails iff the type is
`choice` and the choices list is `None` or empty. -/
def validate_choice_type_has_choices (o : OptionSpec) : Except OptErr OptionSpec :=
  if o.type = "choice" then
    match o.choices with
    | none => .error .choiceEmpty
    | some cs => if cs.length = 0 then .error .choiceEmpty else .ok o
  else .ok o

/-- The record produced by pydantic field validation before the model
validators run: `clean_name` and `clean_short` (both `mode="before"`)
have normalized `name` and `short`. -/
def rawOption (name : String) (short : Option String) (type : String)
    (required : Bool) (default : Option PyValue) (help : String)
    (choices : Option (List String)) : OptionSpec :=
  { name := sanitize_name name, short := clean_short short, type := type,
    required := required, default := default, help := help, choices := choices }

/-- Constructing an `OptionSpec` through pydantic: `mode="before"` field
validators (`clean_name`, `clean_short`) run first, then the `mode="after"`
model validators in definition order (`validate_short_option`, then
`validate_choice_type_has_choices`); the first raised error wins. -/
def mkOptionSpec (name : String) (short : Option String) (type : String)
    (required : Bool) (default : Option PyValue) (help : String)
    (choices : Option (List String)) : Except OptErr OptionSpec := do
  let o := rawOption name short type required default help choices
  let o ← validate_short_option o
  validate_choice_type_has_choices o

/-- `CommandSpec`: one subcommand, fields as in `models.py`. -/
structure CommandSpec where
  name : String
  description : String
  arguments : List ArgumentSpec := []
  options : List OptionSpec := []
  examples : List String := []
  deriving Repr, DecidableEq

/-- The Python list comprehension
`[n for n in names if n in seen or seen.add(n)]` run over `names` with an
initially given `seen` set: keeps exactly the occurrences whose value was
already seen. -/
def dupListAux (seen : List String) : List String → List String
  | [] => []
  | n :: rest =>
      if n ∈ seen then n :: dupListAux seen rest
      else dupListAux (n :: seen) rest

/-- The duplicates list the validators interpolate into their error
message, starting from an empty `seen` set. -/
def dupList (names : List String) : List String :=
  dupListAux [] names

/-- Python `repr` of a list of strings, as an f-string renders it:
`['a', 'b']`. -/
def pyListRepr (l : List String) : String :=
  "[" ++ String.intercalate ", " (l.map (fun s => "'" ++ s ++ "'")) ++ "]"

/-- Errors raised by `CommandSpec.validate_no_duplicates`. -/
inductive CmdErr where
  | dupOptions (l : List String)
  | dupShorts (l : List String)
  | dupArgs (l : List String)
  deriving Repr, DecidableEq

/-- The exact `ValueError` message text of `validate_no_duplicates`. -/
def cmdErrMsg : CmdErr → String
  | .dupOptions l => "Duplicate option names: " ++ pyListRepr l
  | .dupShorts l => "Duplicate short option names: " ++ pyListRepr l
  | .dupArgs l => "Duplicate argument names: " ++ pyListRepr l

/-- `CommandSpec.validate_no_duplicates`: three duplicate checks in order
(option names, short option names excluding `None`, argument names); each
compares `len(names)` with `len(set(names))` and raises with the
comprehension-built duplicates list. -/
def validate_no_duplicates (cmd : CommandSpec) : Except CmdErr CommandSpec :=
  let option_names := cmd.options.map (·.name)
  if option_names.length ≠ option_names.dedup.length then
    .error (.dupOptions (dupList option_names))
  else
    let short_names := cmd.options.filterMap (·.short)
    if short_names.length ≠ short_names.dedup.length then
      .error (.dupShorts (dupList short_names))
    else
      let arg_names := cmd.arguments.map (·.name)
      if arg_names.length ≠ arg_names.dedup.length then
        .error (.dupArgs (dupList arg_names))
      else .ok cmd

/-- The character class `[a-zA-Z_]` (Lean's `Char.isAlpha` is exactly
ASCII `a`-`z`, `A`-`Z`). -/
def isIdentStart (c : Char) : Bool :=
  c.isAlpha || c = '_'

/-- The character class `[a-zA-Z0-9_]`. -/
def isIdentCont (c : Char) : Bool :=
  c.isAlpha || c.isDigit || c = '_'

/-- Whether a character sequence is matched, in its entirety, by
`[a-zA-Z_][a-zA-Z0-9_]*`. -/
def isIdentChars : List Char → Bool
  | [] => false
  | c :: cs => isIdentStart c && cs.all isIdentCont

/-- `PYTHON_IDENTIFIER_PATTERN.match(s)` for the compiled pattern
`^[a-zA-Z_][a-zA-Z0-9_]*$`, with Python `re` semantics: `$` matches at the
end of the string or just before a newline at the end of the string, so the
pattern also accepts an identifier followed by one trailing newline. -/
def pyMatchIdent (s : String) : Bool :=
  isIdentChars s.data ||
    (match s.data.getLast? with
     | some c => c = '\n' && isIdentChars s.data.dropLast
     | none => false)

/-- `keyword.kwlist` of the Python standard library: `keyword.iskeyword(s)`
is membership in this list. -/
def pythonKeywords : List String :=
  ["False", "None", "True", "and", "as", "assert", "async", "await",
   "break", "class", "continue", "def", "del", "elif", "else", "except",
   "finally", "for", "from", "global", "if", "import", "in", "is",
   "lambda", "nonlocal", "not", "or", "pass", "raise", "return", "try",
   "while", "with", "yield"]

/-- `keyword.iskeyword`. -/
def iskeyword (s : String) : Bool :=
  pythonKeywords.contains s

/-- `CLISpec`: the root specification, fields as in `models.py`. -/
structure CLISpec where
  name : String
  description : String
  commands : List CommandSpec := []
  global_options : List OptionSpec := []
  python_version : String := "3.11"
  dependencies : List String := []
  deriving Repr, DecidableEq

/-- Errors raised by `CLISpec.validate_cli_spec`. -/
inductive SpecErr where
  | emptyName
  | invalidName (n : String)
  | keywordName (n : String)
  | dupCommands (l : List String)
  | dupGlobalOptions (l : List String)
  | dupGlobalShorts (l : List String)
  deriving Repr, DecidableEq

/-- The exact `ValueError` message text of `validate_cli_spec`. -/
def specErrMsg : SpecErr → String
  | .emptyName => "CLI name cannot be empty"
  | .invalidName n =>
      "'" ++ n ++ "' is not a valid Python package name. " ++
      "Must start with a letter or underscore, contain only " ++
      "letters, numbers, and underscores."
  | .keywordName n =>
      "'" ++ n ++ "' is not a valid Python package name. " ++
      "Cannot use Python keywords."
  | .dupCommands l => "Duplicate command names: " ++ pyListRepr l
  | .dupGlobalOptions l => "Duplicate global option names: " ++ pyListRepr l
  | .dupGlobalShorts l => "Duplicate global short option names: " ++ pyListRepr l

/-- `CLISpec.validate_cli_spec`: name checks (empty, identifier pattern via
`re.match`, Python keyword), then the three duplicate checks over command
names, global option names, and global short option names. -/
def validate_cli_spec (spec : CLISpec) : Except SpecErr CLISpec :=
  if spec.name = "" then .error .emptyName
  else if ¬ pyMatchIdent spec.name then .error (.invalidName spec.name)
  else if iskeyword spec.name then .error (.keywordName spec.name)
  else
    let command_names := spec.commands.map (·.name)
    if command_names.length ≠ command_names.dedup.length then
      .error (.dupCommands (dupList command_names))
    else
      let option_names := spec.global_options.map (·.name)
      if option_names.length ≠ option_names.dedup.length then
        .error (.dupGlobalOptions (dupList option_names))
      else
        let short_names := spec.global_options.filterMap (·.short)
        if short_names.length ≠ short_names.dedup.length then
          .error (.dupGlobalShorts (dupList short_names))
        else .ok spec

/-! ## Code emitter (`generators/code_generator.py`) -/

/-- The union type `ArgumentSpec | OptionSpec` taken by
`CodeGenerator._python_type`. -/
inductive ParamSpec where
  | arg (a : ArgumentSpec)
  | opt (o : OptionSpec)
  deriving Repr, DecidableEq

/-- The `type` field of either kind of spec. -/
def ParamSpec.type : ParamSpec → String
  | .arg a => a.type
  | .opt o => o.type

/-- The `type_map` dictionary of `CodeGenerator._python_type`;
`type_map.get(t, "str")` is `(typeMap.lookup t).getD "str"`. -/
def typeMap : List (String × String) :=
  [("str", "str"), ("int", "int"), ("float", "float"),
   ("bool", "bool"), ("path", "Path"), ("choice", "str")]

/-- `CodeGenerator._python_type`: the base type from `type_map` with a
`"str"` fallback; a not-required option that is not boolean gets the base
type wrapped as `_ | None`, a not-required boolean option stays `bool`. -/
def python_type (spec : ParamSpec) : String :=
  let base_type := (typeMap.lookup spec.type).getD "str"
  match spec with
  | .opt o =>
      if o.required = false then
        if o.type = "bool" then "bool" else base_type ++ " | None"
      else base_type
  | .arg _ => base_type

/-- `option.help.replace('"', '\\"')`: each double quote becomes a
backslash-escaped quote. -/
def escapeHelp (s : String) : String :=
  String.mk (List.flatten (s.data.map (fun c => if c = '"' then ['\\', '"'] else [c])))

/-- The `parts` entries appended for the short option name:
`if option.short:` is Python truthiness, false for `None` and `""`. -/
def optShortPart : Option String → List String
  | some s => if s.length = 0 then [] else ["\"-" ++ s ++ "\", "]
  | none => []

/-- The `parts` entry appended for the type of an option (nothing for an
unknown tag and for `str`). -/
def optTypePart (o : OptionSpec) : List String :=
  if o.type = "bool" then [", is_flag=True"]
  else if o.type = "int" then [", type=int"]
  else if o.type = "float" then [", type=float"]
  else if o.type = "path" then [", type=click.Path()"]
  else if o.type = "choice" then
    [", type=click.Choice([" ++
      String.intercalate ", " ((o.choices.getD []).map (fun c => "\"" ++ c ++ "\"")) ++ "])"]
  else []

/-- The rendered `, default=...` clause for a present default value:
string defaults are quoted, anything else is interpolated via `str`. -/
def renderDefaultClause (v : PyValue) : String :=
  match v with
  | .pyStr s => ", default=\"" ++ s ++ "\""
  | v => ", default=" ++ pyShow v

/-- The `parts` entry appended for the default value:
`if option.default is not None and option.type != "bool"`. -/
def optDefaultPart (o : OptionSpec) : List String :=
  match o.default with
  | some v => if o.type ≠ "bool" then [renderDefaultClause v] else []
  | none => []

/-- The `parts` entry appended for `required=True`. -/
def optRequiredPart (o : OptionSpec) : List String :=
  if o.required then [", required=True"] else []

/-- The `parts` entry appended for the help text (`if option.help:` is
Python truthiness, false for the empty string). -/
def optHelpPart (o : OptionSpec) : List String :=
  if o.help = "" then [] else [", help=\"" ++ escapeHelp o.help ++ "\""]

/-- `CodeGenerator._render_option` as its `parts` list, in the order the
source appends them. -/
def render_option_parts (o : OptionSpec) : List String :=
  ["@click.option("] ++ optShortPart o.short ++ ["\"--" ++ o.name ++ "\""] ++
    optTypePart o ++ optDefaultPart o ++ optRequiredPart o ++ optHelpPart o ++ [")"]

/-- `CodeGenerator._render_option`: `"".join(parts)`. -/
def render_option (o : OptionSpec) : String :=
  String.join (render_option_parts o)

/-- The `parts` entry appended for the type of an argument: `path`
arguments get an existence-checked `click.Path(exists=True)`. -/
def argTypePart (a : ArgumentSpec) : List String :=
  if a.type = "int" then [", type=int"]
  else if a.type = "float" then [", type=float"]
  else if a.type = "path" then [", type=click.Path(exists=True)"]
  else []

/-- `CodeGenerator._render_argument` as its `parts` list. -/
def render_argument_parts (a : ArgumentSpec) : List String :=
  ["@click.argument(\"" ++ a.name ++ "\""] ++ argTypePart a ++
    (if a.required then [] else [", required=False"]) ++ [")"]

/-- `CodeGenerator._render_argument`: `"".join(parts)`. -/
def render_argument (a : ArgumentSpec) : String :=
  String.join (render_argument_parts a)

/-- `CodeGenerator._to_func_name`: replace dashes and spaces with
underscores and lowercase
(`name.replace("-", "_").replace(" ", "_").lower()`). -/
def to_func_name (name : String) : String :=
  String.mk (name.data.map (fun c =>
    if c = '-' then '_' else if c = ' ' then '_' else c.toLower))

/-- `CodeGenerator._to_param_name`: the identical transform, used for
argument and option binding names. -/
def to_param_name (name : String) : String :=
  String.mk (name.data.map (fun c =>
    if c = '-' then '_' else if c = ' ' then '_' else c.toLower))

/-- `CodeGenerator._generate_init`: the package initializer content. -/
def generate_init (spec : CLISpec) : String :=
  "\"\"\"" ++ spec.description ++ "\"\"\"\n\n__version__ = \"0.1.0\"\n"

/-- `CodeGenerator._generate_pyproject`: the manifest content, with the
dependency list seeded by `click>=8.1` followed by the declared
dependencies in order. -/
def generate_pyproject (spec : CLISpec) : String :=
  let deps := "click>=8.1" :: spec.dependencies
  let deps_str := String.intercalate ",\n    " (deps.map (fun d => "\"" ++ d ++ "\""))
  "[project]\nname = \"" ++ spec.name ++ "\"\nversion = \"0.1.0\"\ndescription = \"" ++
    spec.description ++ "\"\nrequires-python = \">=" ++ spec.python_version ++
    "\"\ndependencies = [\n    " ++ deps_str ++ ",\n]\n\n[project.scripts]\n" ++
    spec.name ++ " = \"" ++ spec.name ++ ".cli:main\"\n\n[build-system]\n" ++
    "requires = [\"setuptools>=61.0\"]\nbuild-backend = \"setuptools.build_meta\"\n"

/-- The fixed leading part of the README (title, description,
installation snippet, usage snippet). -/
def readmeHeader (spec : CLISpec) : String :=
  "# " ++ spec.name ++ "\n\n" ++ spec.description ++
    "\n\n## Installation\n\n```bash\npip install " ++ spec.name ++
    "\n```\n\n## Usage\n\n```bash\n" ++ spec.name ++ " --help\n```\n"

/-- The README section rendered for one command: heading, description,
and the generic `<name> <command> --help` invocation block. -/
def commandSection (cliName : String) (cmd : CommandSpec) : String :=
  "### " ++ cmd.name ++ "\n\n" ++ cmd.description ++ "\n\n```bash\n" ++
    cliName ++ " " ++ cmd.name ++ " --help\n```\n\n"

/-- The README line rendered for one global option. -/
def globalOptionLine (o : OptionSpec) : String :=
  let opt_str :=
    match o.short with
    | some s => if s.length = 0 then "--" ++ o.name else "-" ++ s ++ ", --" ++ o.name
    | none => "--" ++ o.name
  "- `" ++ opt_str ++ "`: " ++ o.help ++ "\n"

/-- `CodeGenerator._generate_readme`: header, then (when commands exist) a
`## Commands` block accumulating one section per command in order, then
(when global options exist) a `## Global Options` listing, mirroring the
source's `readme += ...` loops. -/
def generate_readme (spec : CLISpec) : String :=
  let readme := readmeHeader spec
  let readme :=
    if spec.commands.length = 0 then readme
    else spec.commands.foldl (fun acc cmd => acc ++ commandSection spec.name cmd)
      (readme ++ "\n## Commands\n\n")
  if spec.global_options.length = 0 then readme
  else spec.global_options.foldl (fun acc o => acc ++ globalOptionLine o)
    (readme ++ "## Global Options\n\n")

/-- Modelled from the spec: the entry-module template `cli.py.j2` is not
among the sources (only `PackageLoader("cli_generator", "templates")`
references it), so the entry module rendering is modelled from the
specification: for every Command in the order it appears, one callable
unit with one binding clause per Argument in order and one per Option in
order, rendered through `render_argument`/`render_option` and named via
`to_func_name`; global Options are bound once at the top-level
dispatcher. -/
def commandUnit (cmd : CommandSpec) : String :=
  String.join (cmd.arguments.map (fun a => render_argument a ++ "\n")) ++
    String.join (cmd.options.map (fun o => render_option o ++ "\n")) ++
    "def " ++ to_func_name cmd.name ++ "():\n"

/-- Modelled from the spec: `CodeGenerator._generate_cli`, the entry
module content — the top-level dispatcher binding every global Option
once, followed by one callable unit per Command in order. -/
def generate_cli (spec : CLISpec) : String :=
  String.join (spec.global_options.map (fun o => render_option o ++ "\n")) ++
    "def main():\n" ++ String.join (spec.commands.map commandUnit)

/-- Executable infix test on character lists: `nd` occurs as a contiguous
run somewhere in the list. -/
def infixOfChars (nd : List Char) : List Char → Bool
  | [] => nd.isPrefixOf []
  | c :: cs => nd.isPrefixOf (c :: cs) || infixOfChars nd cs

/-- "The rendered text contains this substring": used to state containment
properties of rendered artifacts. -/
def containsSubstr (needle s : String) : Bool :=
  infixOfChars needle.data s.data

/-- Recognizes a rendered `, default=...` clause among decorator parts:
the part starts with the ten characters of `, default=`. -/
def isDefaultClause (p : String) : Bool :=
  match p.data with
  | ',' :: ' ' :: 'd' :: 'e' :: 'f' :: 'a' :: 'u' :: 'l' :: 't' :: '=' :: _ => true
  | _ => false

/-- C1 counterexample input: a command whose five options are named
`a`, `b`, `b`, `a`, `a`. -/
def cmdDupNames : CommandSpec :=
  { name := "cmd", description := "d",
    options := [{ name := "a" }, { name := "b" }, { name := "b" },
                { name := "a" }, { name := "a" }] }

/-- C6 failing input: a specification whose name is an identifier followed
by a trailing newline. -/
def specNewlineName : CLISpec :=
  { name := "abc\n", description := "x" }

/-- C2 counterexample input: a specification whose single command carries a
non-empty `examples` list. -/
def specWithExamples : CLISpec :=
  { name := "tool", description := "d",
    commands := [{ name := "conv", description := "c", examples := ["zzz"] }] }

end CliGen

namespace CliGen

-- A few sanity checks of the embedding on concrete values.
example : sanitize_name "--output" = "output" := by decide
example : clean_short (some "-o") = some "o" := by decide
example : clean_short (some "--") = none := by decide
example : dupList ["a", "a", "a"] = ["a", "a"] := by decide
example : dupList ["a", "b", "b", "a", "a"] = ["b", "a", "a"] := by decide
example : pyListRepr ["a", "a"] = "['a', 'a']" := by decide
example : pyMatchIdent "my_tool2" = true := by decide
example : pyMatchIdent "my-tool" = false := by decide
example : pyMatchIdent "abc\n" = true := by decide
example : pyMatchIdent "abc\n\n" = false := by decide
example : pyMatchIdent "\n" = false := by decide
example : iskeyword "import" = true := by decide
example : iskeyword "try" = true := by decide
example : pythonKeywords.length = 35 := by decide
example : validate_cli_spec { name := "try", description := "x" }
    = .error (.keywordName "try") := rfl
example : validate_cli_spec { name := "import", description := "x" }
    = .error (.keywordName "import") := rfl
example : python_type (.opt { name := "o", type := "int" }) = "int | None" := by decide
example : python_type (.opt { name := "o", type := "bool" }) = "bool" := by decide
example : python_type (.opt { name := "o", type := "url" }) = "str | None" := by decide
example : python_type (.arg { name := "a", type := "path" }) = "Path" := by decide
example : render_option { name := "format", type := "choice", default := some (.pyStr "png"), choices := some ["png", "jpeg"] } = "@click.option(\"--format\", type=click.Choice([\"png\", \"jpeg\"]), default=\"png\")" := by decide
example : render_option { name := "verbose", short := some "v", type := "bool", default := some (.pyBool false), help := "Say more" } = "@click.option(\"-v\", \"--verbose\", is_flag=True, help=\"Say more\")" := by decide
example : render_argument { name := "input_file", type := "path" } = "@click.argument(\"input_file\", type=click.Path(exists=True))" := by decide
example : containsSubstr "conv --help" (generate_readme { name := "tool", description := "d", commands := [{ name := "conv", description := "c" }] }) = true := by decide

/-! ## Supporting lemmas -/

/-- The Python check `len(names) == len(set(names))` holds exactly when the
list has no duplicates. -/
theorem length_eq_dedup_length_iff (l : List String) :
    l.length = l.dedup.length ↔ l.Nodup := by
  constructor
  · intro h
    have hs := (List.dedup_sublist l).eq_of_length h.symm
    rw [← hs]
    exact List.nodup_dedup l
  · intro h
    rw [List.dedup_eq_self.mpr h]

/-- Each value occurs in the comprehension-built duplicates list once per
occurrence in the scanned list beyond the first not-yet-seen one. -/
theorem dupListAux_count (n : String) (l : List String) : ∀ seen : List String,
    (dupListAux seen l).count n =
      if n ∈ seen then l.count n else l.count n - 1 := by
  induction l with
  | nil => intro seen; simp [dupListAux]
  | cons m rest ih =>
    intro seen
    by_cases hm : m ∈ seen
    · rw [dupListAux, if_pos hm]
      by_cases hn : n ∈ seen
      · simp [List.count_cons, ih, hn]
      · have hnm : (m == n) = false := by
          simp only [beq_eq_false_iff_ne]
          intro h
          exact hn (h ▸ hm)
        simp [List.count_cons, ih, hn, hnm]
    · rw [dupListAux, if_neg hm]
      by_cases hnm : n = m
      · subst hnm
        have : n ∈ n :: seen := List.mem_cons_self n seen
        simp [ih, this, List.count_cons, hm]
      · have : (n ∈ m :: seen) ↔ (n ∈ seen) := by
          simp [List.mem_cons, hnm]
        rw [ih (m :: seen)]
        simp only [this]
        have hmn : (m == n) = false := by
          simp only [beq_eq_false_iff_ne]
          exact fun h => hnm h.symm
        by_cases hn : n ∈ seen <;> simp [hn, List.count_cons, hmn]

/-- The duplicates list is a subsequence of the scanned list. -/
theorem dupListAux_sublist (l : List String) : ∀ seen : List String,
    List.Sublist (dupListAux seen l) l := by
  induction l with
  | nil => intro seen; simp [dupListAux]
  | cons m rest ih =>
    intro seen
    rw [dupListAux]
    by_cases hm : m ∈ seen
    · rw [if_pos hm]
      exact (ih seen).cons₂ m
    · rw [if_neg hm]
      exact (ih (m :: seen)).cons m

/-- `validate_no_duplicates` succeeds exactly when all three sibling name
projections are duplicate-free. -/
theorem validate_no_duplicates_ok_iff (cmd : CommandSpec) :
    validate_no_duplicates cmd = .ok cmd ↔
      ((cmd.options.map (·.name)).Nodup ∧
        (cmd.options.filterMap (·.short)).Nodup ∧
        (cmd.arguments.map (·.name)).Nodup) := by
  rw [validate_no_duplicates]
  by_cases h1 : (cmd.options.map (·.name)).length = (cmd.options.map (·.name)).dedup.length
  · rw [if_neg (by simpa using h1)]
    by_cases h2 : (cmd.options.filterMap (·.short)).length
        = (cmd.options.filterMap (·.short)).dedup.length
    · rw [if_neg (by simpa using h2)]
      by_cases h3 : (cmd.arguments.map (·.name)).length
          = (cmd.arguments.map (·.name)).dedup.length
      · rw [if_neg (by simpa using h3)]
        simp [(length_eq_dedup_length_iff _).mp h1,
          (length_eq_dedup_length_iff _).mp h2,
          (length_eq_dedup_length_iff _).mp h3]
      · rw [if_pos (by simpa using h3)]
        simp only [length_eq_dedup_length_iff] at h3
        simp [h3]
    · rw [if_pos (by simpa using h2)]
      simp only [length_eq_dedup_length_iff] at h2
      simp [h2]
  · rw [if_pos (by simpa using h1)]
    simp only [length_eq_dedup_length_iff] at h1
    simp [h1]

/-- The root-name checks of `validate_cli_spec` as a proposition. -/
def specNameOk (spec : CLISpec) : Prop :=
  spec.name ≠ "" ∧ pyMatchIdent spec.name = true ∧ iskeyword spec.name = false

/-- `validate_cli_spec` succeeds exactly when the root name passes its
three checks and the three sibling name projections are duplicate-free. -/
theorem validate_cli_spec_ok_iff (spec : CLISpec) :
    validate_cli_spec spec = .ok spec ↔
      (specNameOk spec ∧ (spec.commands.map (·.name)).Nodup ∧
        (spec.global_options.map (·.name)).Nodup ∧
        (spec.global_options.filterMap (·.short)).Nodup) := by
  rw [validate_cli_spec, specNameOk]
  by_cases hn1 : spec.name = ""
  · simp [hn1]
  · rw [if_neg hn1]
    by_cases hn2 : pyMatchIdent spec.name = true
    · rw [if_neg (by simp [hn2])]
      by_cases hn3 : iskeyword spec.name = true
      · rw [if_pos hn3]
        simp [hn1, hn3]
      · rw [if_neg hn3]
        by_cases h1 : (spec.commands.map (·.name)).length
            = (spec.commands.map (·.name)).dedup.length
        · rw [if_neg (by simpa using h1)]
          by_cases h2 : (spec.global_options.map (·.name)).length
              = (spec.global_options.map (·.name)).dedup.length
          · rw [if_neg (by simpa using h2)]
            by_cases h3 : (spec.global_options.filterMap (·.short)).length
                = (spec.global_options.filterMap (·.short)).dedup.length
            · rw [if_neg (by simpa using h3)]
              simp only [length_eq_dedup_length_iff] at h1 h2 h3
              simp [hn1, hn2, hn3, h1, h2, h3]
            · rw [if_pos (by simpa using h3)]
              simp only [length_eq_dedup_length_iff] at h3
              simp [h3]
          · rw [if_pos (by simpa using h2)]
            simp only [length_eq_dedup_length_iff] at h2
            simp [h2]
        · rw [if_pos (by simpa using h1)]
          simp only [length_eq_dedup_length_iff] at h1
          simp [h1]
    · rw [if_pos (by simpa using hn2)]
      simp [hn2]

/-! ## Claim C1 -/

/-- C1 counterexample: for the command whose option names are
`a, b, b, a, a`, validation fails but the error report lists `a` twice —
not exactly once — and lists `b` before `a` although `a` is first-seen:
the report is `['b', 'a', 'a']`, exactly as the Python `ValueError`
message renders it. -/
theorem duplicate_report_repeats_counterexample :
    validate_no_duplicates cmdDupNames = .error (.dupOptions ["b", "a", "a"]) ∧
    (["b", "a", "a"].count "a") = 2 ∧
    cmdErrMsg (.dupOptions ["b", "a", "a"])
      = "Duplicate option names: ['b', 'a', 'a']" := by
  refine ⟨rfl, by decide, by decide⟩

/-- C1 (amended): whenever a sibling name projection of a Command or a
Specification contains a repeated name, validation fails (success is
exactly duplicate-freedom of every projection, plus the root-name checks
for the Specification); the reported duplicates list contains each name
once per occurrence beyond its first — so a name repeated k times is
reported k - 1 times, not exactly once — and is a subsequence of the
projection, so repeats are reported in traversal order rather than
first-seen order of distinct names. -/
theorem duplicate_validation_characterization :
    (∀ cmd : CommandSpec, validate_no_duplicates cmd = .ok cmd ↔
        ((cmd.options.map (·.name)).Nodup ∧
          (cmd.options.filterMap (·.short)).Nodup ∧
          (cmd.arguments.map (·.name)).Nodup)) ∧
    (∀ spec : CLISpec, validate_cli_spec spec = .ok spec ↔
        (specNameOk spec ∧ (spec.commands.map (·.name)).Nodup ∧
          (spec.global_options.map (·.name)).Nodup ∧
          (spec.global_options.filterMap (·.short)).Nodup)) ∧
    (∀ (names : List String) (n : String),
        (dupList names).count n = names.count n - 1) ∧
    (∀ names : List String, List.Sublist (dupList names) names) :=
  ⟨validate_no_duplicates_ok_iff, validate_cli_spec_ok_iff,
    fun names n => by simpa [dupList] using dupListAux_count n names [],
    fun names => dupListAux_sublist names []⟩

/-! ## Option validator lemmas -/

/-- On success the short-name validator returns its input unchanged. -/
theorem validate_short_option_ok_elim (o o' : OptionSpec)
    (h : validate_short_option o = .ok o') : o' = o := by
  rw [validate_short_option] at h
  split at h
  · split at h
    · exact absurd h (by simp)
    · exact (Except.ok.inj h).symm
  · exact (Except.ok.inj h).symm

/-- The short-name validator fails exactly on an option carrying a short
name whose length is not 1, and the error names that short name. -/
theorem validate_short_option_error_iff (o : OptionSpec) (e : OptErr) :
    validate_short_option o = .error e ↔
      (∃ s, e = .shortLen s ∧ o.short = some s ∧ s.length ≠ 1) := by
  rw [validate_short_option]
  cases hs : o.short with
  | none => simp
  | some s =>
    dsimp only
    by_cases hl : s.length ≠ 1
    · rw [if_pos hl]
      constructor
      · intro h
        exact ⟨s, (Except.error.inj h).symm, rfl, hl⟩
      · rintro ⟨s', he, hss, _⟩
        rw [Option.some.inj hss, he]
    · rw [if_neg hl]
      constructor
      · intro h
        exact absurd h (by simp)
      · rintro ⟨s', _, hss, hl'⟩
        exact absurd (Option.some.inj hss ▸ hl') hl

/-- On success the choices validator returns its input unchanged. -/
theorem validate_choice_ok_elim (o o' : OptionSpec)
    (h : validate_choice_type_has_choices o = .ok o') : o' = o := by
  rw [validate_choice_type_has_choices] at h
  split at h
  · split at h
    · exact absurd h (by simp)
    · split at h
      · exact absurd h (by simp)
      · exact (Except.ok.inj h).symm
  · exact (Except.ok.inj h).symm

/-- The choices validator fails exactly on a `choice`-typed option whose
choices list is absent or empty. -/
theorem validate_choice_error_iff (o : OptionSpec) :
    validate_choice_type_has_choices o = .error .choiceEmpty ↔
      (o.type = "choice" ∧ (o.choices = none ∨ o.choices = some [])) := by
  rw [validate_choice_type_has_choices]
  by_cases ht : o.type = "choice"
  · rw [if_pos ht]
    cases hc : o.choices with
    | none => simp [ht]
    | some cs =>
      cases cs with
      | nil => simp [ht]
      | cons c rest => simp [ht]
  · rw [if_neg ht]
    simp [ht]

/-- Unfolding the construction pipeline. -/
theorem mkOptionSpec_eq (name : String) (short : Option String) (ty : String)
    (req : Bool) (d : Option PyValue) (h : String) (ch : Option (List String)) :
    mkOptionSpec name short ty req d h ch =
      (validate_short_option (rawOption name short ty req d h ch)).bind
        validate_choice_type_has_choices := rfl

/-! ## Claim C3 -/

/-- C3: the choices validator fails exactly on a `choice`-typed option
whose choices list is absent or empty; an option of any other type passes
it whatever its choices value, and the full construction pipeline never
raises the choices error for a non-`choice` type. -/
theorem choice_validation_iff :
    (∀ o : OptionSpec, validate_choice_type_has_choices o = .error .choiceEmpty ↔
        (o.type = "choice" ∧ (o.choices = none ∨ o.choices = some []))) ∧
    (∀ o : OptionSpec, o.type ≠ "choice" → validate_choice_type_has_choices o = .ok o) ∧
    (∀ (name : String) (short : Option String) (ty : String) (req : Bool)
        (d : Option PyValue) (h : String) (ch : Option (List String)),
        ty ≠ "choice" → mkOptionSpec name short ty req d h ch ≠ .error .choiceEmpty) := by
  refine ⟨validate_choice_error_iff, ?_, ?_⟩
  · intro o ht
    rw [validate_choice_type_has_choices, if_neg ht]
  · intro name short ty req d h ch ht hcontra
    rw [mkOptionSpec_eq] at hcontra
    cases hv : validate_short_option (rawOption name short ty req d h ch) with
    | error e =>
      rw [hv] at hcontra
      obtain ⟨s, he, -, -⟩ :=
        (validate_short_option_error_iff _ _).mp hv
      subst he
      simp [Except.bind] at hcontra
    | ok o' =>
      rw [hv] at hcontra
      simp only [Except.bind] at hcontra
      have ho : o' = rawOption name short ty req d h ch :=
        validate_short_option_ok_elim _ _ hv
      have := (validate_choice_error_iff o').mp hcontra
      rw [ho] at this
      exact ht this.1

/-- Witness for C3 at concrete options: a `choice` option with an empty
list fails, a `str` option with an empty list passes the choices
validator, and its full construction never reports the choices error. -/
theorem choice_validation_iff_witness :
    validate_choice_type_has_choices { name := "mode", type := "choice", choices := some [] }
        = .error .choiceEmpty ∧
    validate_choice_type_has_choices { name := "out", type := "str", choices := some [] }
        = .ok { name := "out", type := "str", choices := some [] } ∧
    mkOptionSpec "out" none "str" false none "" (some []) ≠ .error .choiceEmpty :=
  ⟨(choice_validation_iff.1 _).mpr ⟨rfl, Or.inr rfl⟩,
    choice_validation_iff.2.1 _ (by decide),
    choice_validation_iff.2.2 "out" none "str" false none "" (some []) (by decide)⟩

/-! ## Claims C4 and C5 -/

/-- C4: the type mapper is total by construction, and on a type tag
outside the known set it yields the string annotation — bare for an
argument or required option, optional-wrapped for a non-required
option. -/
theorem typeMap_lookup_unknown (t : String)
    (h : t ∉ ["str", "int", "float", "bool", "path", "choice"]) :
    typeMap.lookup t = none := by
  simp only [List.mem_cons, List.mem_singleton, not_or] at h
  obtain ⟨h1, h2, h3, h4, h5, h6, -⟩ := h
  simp [typeMap, List.lookup, beq_eq_false_iff_ne.mpr h1,
    beq_eq_false_iff_ne.mpr h2, beq_eq_false_iff_ne.mpr h3,
    beq_eq_false_iff_ne.mpr h4, beq_eq_false_iff_ne.mpr h5,
    beq_eq_false_iff_ne.mpr h6]

theorem python_type_unknown_tag_total :
    ∀ (a : ArgumentSpec) (o : OptionSpec),
      a.type ∉ ["str", "int", "float", "bool", "path", "choice"] →
      o.type ∉ ["str", "int", "float", "bool", "path", "choice"] →
      python_type (.arg a) = "str" ∧
      python_type (.opt o) = (if o.required then "str" else "str | None") := by
  intro a o ha ho
  have hbool : ¬ o.type = "bool" := by
    intro h
    exact ho (by rw [h]; decide)
  constructor
  · simp [python_type, ParamSpec.type, typeMap_lookup_unknown a.type ha]
  · cases hr : o.required with
    | true => simp [python_type, ParamSpec.type, hr, typeMap_lookup_unknown o.type ho]
    | false =>
      simp [python_type, ParamSpec.type, hr, hbool, typeMap_lookup_unknown o.type ho]

/-- Witness for C4 at the unknown tag `url`. -/
theorem python_type_unknown_tag_total_witness :
    python_type (.arg { name := "a", type := "url" }) = "str" ∧
    python_type (.opt { name := "o", type := "url" })
      = (if ({ name := "o", type := "url" } : OptionSpec).required then "str" else "str | None") :=
  python_type_unknown_tag_total { name := "a", type := "url" } { name := "o", type := "url" }
    (by decide) (by decide)

/-- C5: a non-required non-boolean option resolves to the bare mapped type
of an argument with the same tag, wrapped as `_ | None`; boolean options
always resolve to bare `bool`; a required option and every argument
resolve to the bare mapped type with the `str` fallback. -/
theorem python_type_optional_wrapping :
    (∀ o : OptionSpec, o.required = false → o.type ≠ "bool" →
        python_type (.opt o) = python_type (.arg { name := o.name, type := o.type }) ++ " | None") ∧
    (∀ o : OptionSpec, o.type = "bool" → python_type (.opt o) = "bool") ∧
    (∀ o : OptionSpec, o.required = true →
        python_type (.opt o) = python_type (.arg { name := o.name, type := o.type })) ∧
    (∀ a : ArgumentSpec, python_type (.arg a) = (typeMap.lookup a.type).getD "str") := by
  refine ⟨?_, ?_, ?_, fun a => rfl⟩
  · intro o hr ht
    simp [python_type, ParamSpec.type, hr, ht]
  · intro o ht
    cases hr : o.required with
    | true => simp [python_type, ParamSpec.type, hr, ht, typeMap, List.lookup]
    | false => simp [python_type, ParamSpec.type, hr, ht]
  · intro o hr
    simp [python_type, ParamSpec.type, hr]

/-- Witness for C5 at concrete options of each shape. -/
theorem python_type_optional_wrapping_witness :
    python_type (.opt { name := "n", type := "int", required := false })
        = python_type (.arg { name := "n", type := "int" }) ++ " | None" ∧
    python_type (.opt { name := "v", type := "bool" }) = "bool" ∧
    python_type (.opt { name := "n", type := "int", required := true })
        = python_type (.arg { name := "n", type := "int" }) ∧
    python_type (.arg { name := "p", type := "path" }) = (typeMap.lookup "path").getD "str" :=
  ⟨python_type_optional_wrapping.1 { name := "n", type := "int", required := false } rfl (by decide),
    python_type_optional_wrapping.2.1 { name := "v", type := "bool" } rfl,
    python_type_optional_wrapping.2.2.1 { name := "n", type := "int", required := true } rfl,
    python_type_optional_wrapping.2.2.2 { name := "p", type := "path" }⟩

/-! ## Claim C7 -/

/-- The only error the choices validator raises is the choices error. -/
theorem validate_choice_error_elim (o : OptionSpec) (e : OptErr)
    (h : validate_choice_type_has_choices o = .error e) : e = .choiceEmpty := by
  rw [validate_choice_type_has_choices] at h
  split at h
  · split at h
    · exact (Except.error.inj h).symm ▸ rfl
    · split at h
      · exact (Except.error.inj h).symm ▸ rfl
      · exact absurd h (by simp)
  · exact absurd h (by simp)

/-- C7: the short name is normalized (dashes stripped, empty short made
absent) before the invariant check, which then fails exactly when the
canonical short name is present with length other than 1; a successfully
constructed option carries the canonical short name; and
`Option(name="output", short="out")` is rejected with the short-length
error. -/
theorem short_option_normalized_before_check :
    (∀ (name : String) (short : Option String) (ty : String) (req : Bool)
        (d : Option PyValue) (h : String) (ch : Option (List String)),
      ((∃ s, mkOptionSpec name short ty req d h ch = .error (.shortLen s)) ↔
        (∃ s, clean_short short = some s ∧ s.length ≠ 1)) ∧
      (∀ o, mkOptionSpec name short ty req d h ch = .ok o → o.short = clean_short short)) ∧
    clean_short (some "") = none ∧
    clean_short (some "--out") = some "out" ∧
    mkOptionSpec "output" (some "out") "str" false none "" none
      = .error (.shortLen "out") := by
  refine ⟨?_, by decide, by decide, rfl⟩
  intro name short ty req d h ch
  constructor
  · rw [mkOptionSpec_eq]
    cases hv : validate_short_option (rawOption name short ty req d h ch) with
    | error e =>
      obtain ⟨s, he, hs, hl⟩ := (validate_short_option_error_iff _ _).mp hv
      subst he
      simp only [Except.bind]
      constructor
      · intro _
        exact ⟨s, hs, hl⟩
      · intro _
        exact ⟨s, rfl⟩
    | ok o' =>
      simp only [Except.bind]
      constructor
      · rintro ⟨s, hres⟩
        cases hc : validate_choice_type_has_choices o' with
        | error e =>
          rw [hc] at hres
          have := validate_choice_error_elim _ _ hc
          subst this
          exact absurd (Except.error.inj hres) (by simp)
        | ok o'' =>
          rw [hc] at hres
          exact absurd hres (by simp)
      · rintro ⟨s, hs, hl⟩
        have : validate_short_option (rawOption name short ty req d h ch)
            = .error (.shortLen s) := by
          rw [validate_short_option]
          have hraw : (rawOption name short ty req d h ch).short = some s := hs
          rw [hraw]
          dsimp only
          rw [if_pos hl]
        rw [this] at hv
        exact absurd hv (by simp)
  · intro o ho
    rw [mkOptionSpec_eq] at ho
    cases hv : validate_short_option (rawOption name short ty req d h ch) with
    | error e =>
      rw [hv] at ho
      exact absurd ho (by simp [Except.bind])
    | ok o' =>
      rw [hv] at ho
      simp only [Except.bind] at ho
      have h1 : o = o' := validate_choice_ok_elim o' o ho
      have h2 : o' = rawOption name short ty req d h ch :=
        validate_short_option_ok_elim _ _ hv
      rw [h1, h2]
      rfl

/-- Witness for C7 at concrete inputs: `short="-o"` normalizes to `o` and
is accepted with that canonical short name; `short="out"` is rejected. -/
theorem short_option_normalized_before_check_witness :
    (∃ s, mkOptionSpec "output" (some "out") "str" false none "" none
        = .error (.shortLen s)) ∧
    (∀ o, mkOptionSpec "output" (some "-o") "str" false none "" none = .ok o →
        o.short = clean_short (some "-o")) :=
  ⟨((short_option_normalized_before_check.1 "output" (some "out") "str" false none "" none).1).mpr
      ⟨"out", rfl, by decide⟩,
    (short_option_normalized_before_check.1 "output" (some "-o") "str" false none "" none).2⟩

/-! ## Claim C8 -/

/-- No rendered short-name part is a default clause. -/
theorem countP_default_shortPart (s : Option String) :
    (optShortPart s).countP isDefaultClause = 0 := by
  cases s with
  | none => rfl
  | some s =>
    by_cases h : s.length = 0
    · simp [optShortPart, h]
    · have hfalse : isDefaultClause ("\"-" ++ s ++ "\", ") = false := rfl
      simp [optShortPart, h, hfalse]

/-- No rendered type part is a default clause. -/
theorem countP_default_typePart (o : OptionSpec) :
    (optTypePart o).countP isDefaultClause = 0 := by
  have hchoice : ∀ x : String,
      isDefaultClause (", type=click.Choice([" ++ x ++ "])") = false := fun _ => rfl
  have hflag : isDefaultClause ", is_flag=True" = false := rfl
  have hint : isDefaultClause ", type=int" = false := rfl
  have hfloat : isDefaultClause ", type=float" = false := rfl
  have hpath : isDefaultClause ", type=click.Path()" = false := rfl
  rw [optTypePart]
  split_ifs <;> simp [List.countP_cons, hchoice, hflag, hint, hfloat, hpath]

/-- No rendered help part is a default clause. -/
theorem countP_default_helpPart (o : OptionSpec) :
    (optHelpPart o).countP isDefaultClause = 0 := by
  have hfalse : ∀ x : String, isDefaultClause (", help=\"" ++ x ++ "\"") = false :=
    fun _ => rfl
  rw [optHelpPart]
  split_ifs <;> simp [List.countP_cons, hfalse]

/-- No rendered required part is a default clause. -/
theorem countP_default_requiredPart (o : OptionSpec) :
    (optRequiredPart o).countP isDefaultClause = 0 := by
  rw [optRequiredPart]
  split_ifs <;> rfl

/-- The rendered default clause is recognized as one, whatever the
default value. -/
theorem isDefaultClause_renderDefault (v : PyValue) :
    isDefaultClause (renderDefaultClause v) = true := by
  cases v with
  | pyStr s => rfl
  | pyInt n => rfl
  | pyBool b => cases b <;> rfl

/-- Among all parts of a rendered option decorator, only the default part
can be a default clause. -/
theorem countP_default_render_option (o : OptionSpec) :
    (render_option_parts o).countP isDefaultClause
      = (optDefaultPart o).countP isDefaultClause := by
  have hname : ∀ x : String, isDefaultClause ("\"--" ++ x ++ "\"") = false := fun _ => rfl
  have hopen : isDefaultClause "@click.option(" = false := rfl
  have hclose : isDefaultClause ")" = false := rfl
  rw [render_option_parts]
  simp [List.countP_append, List.countP_cons, hname, hopen, hclose,
    countP_default_shortPart, countP_default_typePart,
    countP_default_requiredPart, countP_default_helpPart]

/-- C8: for an option carrying a present default value, the rendered
decorator contains the default literal clause — exactly one default clause
among its parts — if and only if the option's type is not boolean; for a
boolean option no default clause is emitted at all. -/
theorem option_default_literal_iff_not_bool :
    ∀ (o : OptionSpec) (v : PyValue), o.default = some v →
      ((renderDefaultClause v ∈ render_option_parts o ∧
          (render_option_parts o).countP isDefaultClause = 1) ↔ o.type ≠ "bool") ∧
      (o.type = "bool" → (render_option_parts o).countP isDefaultClause = 0) := by
  intro o v hd
  constructor
  · constructor
    · rintro ⟨-, hcount⟩ hbool
      rw [countP_default_render_option] at hcount
      rw [optDefaultPart, hd] at hcount
      simp [hbool] at hcount
    · intro hbool
      constructor
      · rw [render_option_parts, optDefaultPart, hd]
        dsimp only
        rw [if_pos hbool]
        simp
      · rw [countP_default_render_option, optDefaultPart, hd]
        dsimp only
        rw [if_pos hbool]
        simp [List.countP_cons, isDefaultClause_renderDefault]
  · intro hbool
    rw [countP_default_render_option, optDefaultPart, hd]
    dsimp only
    simp [hbool]

/-- Witness for C8: a string-typed option with default `png` renders the
default literal exactly once; a boolean option with a default renders no
default clause. -/
theorem option_default_literal_iff_not_bool_witness :
    (renderDefaultClause (.pyStr "png")
        ∈ render_option_parts { name := "format", type := "str", default := some (.pyStr "png") } ∧
      (render_option_parts { name := "format", type := "str", default := some (.pyStr "png") }).countP
          isDefaultClause = 1) ∧
    (render_option_parts { name := "verbose", type := "bool", default := some (.pyBool true) }).countP
        isDefaultClause = 0 :=
  ⟨((option_default_literal_iff_not_bool
        { name := "format", type := "str", default := some (.pyStr "png") } (.pyStr "png") rfl).1).mpr
      (by decide),
    (option_default_literal_iff_not_bool
        { name := "verbose", type := "bool", default := some (.pyBool true) } (.pyBool true) rfl).2 rfl⟩

/-! ## Claim C10 -/

/-- C10: a path-typed argument renders an existence-checked
`click.Path(exists=True)` clause while a path-typed option renders a plain
`click.Path()` clause; both clauses appear in the respective decorators
and differ from each other. -/
theorem path_argument_vs_option_rendering :
    ∀ (a : ArgumentSpec) (o : OptionSpec), a.type = "path" → o.type = "path" →
      argTypePart a = [", type=click.Path(exists=True)"] ∧
      optTypePart o = [", type=click.Path()"] ∧
      (", type=click.Path(exists=True)") ∈ render_argument_parts a ∧
      (", type=click.Path()") ∈ render_option_parts o ∧
      (", type=click.Path(exists=True)" : String) ≠ ", type=click.Path()" := by
  intro a o ha ho
  have h1 : argTypePart a = [", type=click.Path(exists=True)"] := by
    rw [argTypePart]
    simp [ha]
  have h2 : optTypePart o = [", type=click.Path()"] := by
    rw [optTypePart]
    simp [ho]
  refine ⟨h1, h2, ?_, ?_, by decide⟩
  · rw [render_argument_parts, h1]
    simp
  · rw [render_option_parts, h2]
    simp

/-- Witness for C10 at a concrete path argument and path option. -/
theorem path_argument_vs_option_rendering_witness :
    argTypePart { name := "src", type := "path" } = [", type=click.Path(exists=True)"] ∧
    optTypePart { name := "dest", type := "path" } = [", type=click.Path()"] ∧
    (", type=click.Path(exists=True)")
      ∈ render_argument_parts { name := "src", type := "path" } ∧
    (", type=click.Path()") ∈ render_option_parts { name := "dest", type := "path" } ∧
    (", type=click.Path(exists=True)" : String) ≠ ", type=click.Path()" :=
  path_argument_vs_option_rendering { name := "src", type := "path" }
    { name := "dest", type := "path" } rfl rfl

/-! ## Claim C6 -/

/-- C6: the root-name validation accepts the name `"abc\n"` — an
identifier followed by a trailing newline — because Python's `re.match`
with `$` also matches just before a final newline, although that name does
not match the identifier grammar `[A-Za-z_][A-Za-z0-9_]*`; the reserved
word `"import"` is rejected as the claim states. -/
theorem cli_name_trailing_newline_accepted :
    validate_cli_spec specNewlineName = .ok specNewlineName ∧
    isIdentChars "abc\n".data = false ∧
    pyMatchIdent "abc\n" = true ∧
    validate_cli_spec { name := "import", description := "x" }
      = .error (.keywordName "import") :=
  ⟨rfl, by decide, by decide, rfl⟩

/-! ## Substring machinery for rendered artifacts -/

/-- `String.append` is list append on the character data. -/
theorem string_data_append (a b : String) : (a ++ b).data = a.data ++ b.data := rfl

/-- The executable infix test agrees with `List.IsInfix`. -/
theorem infixOfChars_iff (nd : List Char) (l : List Char) :
    infixOfChars nd l = true ↔ nd <:+: l := by
  induction l with
  | nil =>
    rw [infixOfChars, List.isPrefixOf_iff_prefix, List.prefix_nil, List.infix_nil]
  | cons c cs ih =>
    rw [infixOfChars, Bool.or_eq_true, List.isPrefixOf_iff_prefix, ih,
      List.infix_cons_iff]

/-- `containsSubstr` agrees with `List.IsInfix` on the data. -/
theorem containsSubstr_iff (needle s : String) :
    containsSubstr needle s = true ↔ needle.data <:+: s.data := by
  rw [containsSubstr, infixOfChars_iff]

/-- A substring of the accumulator survives an appending fold. -/
theorem infix_foldl_append {α : Type} (g : α → String) (pat : List Char) :
    ∀ (l : List α) (acc : String), pat <:+: acc.data →
      pat <:+: (l.foldl (fun a y => a ++ g y) acc).data := by
  intro l
  induction l with
  | nil => intro acc h; exact h
  | cons y ys ih =>
    intro acc h
    rw [List.foldl_cons]
    exact ih (acc ++ g y) (by
      rw [string_data_append]
      exact h.trans (List.prefix_append acc.data (g y).data).isInfix)

/-- A substring of one rendered element appears in the appending fold over
any list containing that element. -/
theorem infix_foldl_mem {α : Type} (g : α → String) (pat : List Char) :
    ∀ (l : List α) (x : α), x ∈ l → pat <:+: (g x).data →
      ∀ acc : String, pat <:+: (l.foldl (fun a y => a ++ g y) acc).data := by
  intro l
  induction l with
  | nil => intro x hx; exact absurd hx (List.not_mem_nil x)
  | cons y ys ih =>
    intro x hx hpat acc
    rw [List.foldl_cons]
    rcases List.mem_cons.mp hx with hxy | hxs
    · subst hxy
      apply infix_foldl_append
      rw [string_data_append]
      exact hpat.trans (List.suffix_append acc.data (g x).data).isInfix
    · exact ih x hxs hpat (acc ++ g y)

/-- The generic help-invocation line is a substring of the README section
rendered for a command. -/
theorem commandSection_contains_help_line (n : String) (c : CommandSpec) :
    (n ++ " " ++ c.name ++ " --help").data <:+: (commandSection n c).data := by
  have E : (commandSection n c).data
      = ("### " ++ c.name ++ "\n\n" ++ c.description ++ "\n\n```bash\n").data
        ++ (n ++ " " ++ c.name ++ " --help").data ++ ("\n```\n\n" : String).data := by
    simp [commandSection, string_data_append, List.append_assoc]
  rw [E]
  exact List.infix_append _ _ _

/-- Shifting an appended accumulator out of a string fold. -/
theorem foldl_append_shift (l : List String) : ∀ a b : String,
    l.foldl (fun r s => r ++ s) (a ++ b) = a ++ l.foldl (fun r s => r ++ s) b := by
  induction l with
  | nil => intro a b; rfl
  | cons c cs ih =>
    intro a b
    rw [List.foldl_cons, List.foldl_cons, String.append_assoc, ih]

/-- `String.join` unfolds on a cons cell. -/
theorem string_join_cons (s : String) (l : List String) :
    String.join (s :: l) = s ++ String.join l := by
  show (s :: l).foldl (fun r t => r ++ t) "" = s ++ l.foldl (fun r t => r ++ t) ""
  rw [List.foldl_cons, String.empty_append, ← String.append_empty s,
    foldl_append_shift, String.append_empty]

/-- An appending fold over rendered elements is the accumulator followed by
the ordered concatenation of the renderings. -/
theorem foldl_append_eq_join {α : Type} (g : α → String) :
    ∀ (l : List α) (acc : String),
      l.foldl (fun a y => a ++ g y) acc = acc ++ String.join (l.map g) := by
  intro l
  induction l with
  | nil =>
    intro acc
    show acc = acc ++ String.join []
    rw [show String.join ([] : List String) = "" from rfl, String.append_empty]
  | cons y ys ih =>
    intro acc
    rw [List.foldl_cons, ih, List.map_cons, string_join_cons, String.append_assoc]

/-! ## Claim C2 -/

/-- C2 counterexample: for the specification whose single command carries
the example invocation `zzz`, the rendered README does not contain that
example, yet it does contain the generic `tool conv --help` line — the
fallback is not conditional on the examples being absent. -/
theorem readme_omits_examples_counterexample :
    (specWithExamples.commands.map (·.examples)) = [["zzz"]] ∧
    containsSubstr "zzz" (generate_readme specWithExamples) = false ∧
    containsSubstr "tool conv --help" (generate_readme specWithExamples) = true := by
  refine ⟨rfl, by decide, by decide⟩

/-- C2 (amended): the README is a function of the commands' names and
descriptions only — replacing every command's examples by anything leaves
it unchanged, so supplied examples never appear; whenever commands exist
the README is exactly the header followed by the `## Commands` block
holding one section per Command, concatenated in Specification order,
followed by the global-options listing; and each command's section always
carries the generic `<name> <command> --help` invocation line. -/
theorem readme_generic_help_line :
    (∀ (spec : CLISpec) (f : CommandSpec → List String),
      generate_readme
          { spec with commands := spec.commands.map (fun c => { c with examples := f c }) }
        = generate_readme spec) ∧
    (∀ spec : CLISpec, spec.commands ≠ [] →
      generate_readme spec
        = readmeHeader spec ++ "\n## Commands\n\n"
          ++ String.join (spec.commands.map (commandSection spec.name))
          ++ (if spec.global_options.length = 0 then ""
              else "## Global Options\n\n"
                ++ String.join (spec.global_options.map globalOptionLine))) ∧
    (∀ spec : CLISpec, ∀ c ∈ spec.commands,
      containsSubstr (spec.name ++ " " ++ c.name ++ " --help")
        (generate_readme spec) = true) := by
  refine ⟨?_, ?_, ?_⟩
  · intro spec f
    simp only [generate_readme, List.length_map, List.foldl_map]
    rfl
  · intro spec hne
    rw [generate_readme]
    have hlen : ¬ spec.commands.length = 0 := by
      intro h
      exact hne (List.length_eq_zero.mp h)
    rw [if_neg hlen]
    have hC := foldl_append_eq_join (commandSection spec.name) spec.commands
      (readmeHeader spec ++ "\n## Commands\n\n")
    by_cases hg : spec.global_options.length = 0
    · rw [if_pos hg, if_pos hg, hC, String.append_empty]
    · rw [if_neg hg, if_neg hg,
        foldl_append_eq_join globalOptionLine spec.global_options _, hC]
      simp [String.append_assoc]
  · intro spec c hc
    rw [containsSubstr_iff]
    rw [generate_readme]
    have hne : ¬ spec.commands.length = 0 := by
      intro h
      rw [List.length_eq_zero] at h
      rw [h] at hc
      exact absurd hc (List.not_mem_nil c)
    rw [if_neg hne]
    have hsec := commandSection_contains_help_line spec.name c
    have hblock := infix_foldl_mem (commandSection spec.name) _
      spec.commands c hc hsec
      (readmeHeader spec ++ "\n## Commands\n\n")
    by_cases hg : spec.global_options.length = 0
    · rw [if_pos hg]
      exact hblock
    · rw [if_neg hg]
      apply infix_foldl_append
      rw [string_data_append]
      exact hblock.trans (List.prefix_append _ _).isInfix

/-- Witness for C2's amended theorem at a concrete specification. -/
theorem readme_generic_help_line_witness :
    generate_readme
        { specWithExamples with commands :=
            specWithExamples.commands.map (fun c => { c with examples := (fun _ => []) c }) }
      = generate_readme specWithExamples ∧
    generate_readme specWithExamples
      = readmeHeader specWithExamples ++ "\n## Commands\n\n"
        ++ String.join (specWithExamples.commands.map (commandSection specWithExamples.name))
        ++ (if specWithExamples.global_options.length = 0 then ""
            else "## Global Options\n\n"
              ++ String.join (specWithExamples.global_options.map globalOptionLine)) ∧
    containsSubstr ("tool" ++ " " ++ "conv" ++ " --help")
      (generate_readme specWithExamples) = true :=
  ⟨readme_generic_help_line.1 specWithExamples (fun _ => []),
    readme_generic_help_line.2.1 specWithExamples (by decide),
    readme_generic_help_line.2.2 specWithExamples
      { name := "conv", description := "c", examples := ["zzz"] } (by decide)⟩

/-! ## Claim C9 -/

/-- C9: every rendered artifact is a pure function of the specification
value alone — the embedding of the emitters takes no input other than the
`CLISpec` — so rendering twice yields identical content. -/
theorem emission_deterministic :
    ∀ spec : CLISpec,
      generate_cli spec = generate_cli spec ∧
      generate_init spec = generate_init spec ∧
      generate_pyproject spec = generate_pyproject spec ∧
      generate_readme spec = generate_readme spec :=
  fun _ => ⟨rfl, rfl, rfl, rfl⟩

end CliGen
